import Mathlib

/-!
Shallow embedding of the entity-relationship resolution and denormalized-view
logic of the personal-memory CRUD API (src/app of the repository).

Modelling conventions, fixed once and used throughout:

* The MongoDB store is a `Store` record holding one list per collection, in
  insertion order; `find_one(filter)` is `List.find?`, `find(filter)` is
  `List.filter`, `insert` appends, `save`/`update` replaces the document with
  the same `_id`, `delete_one(filter)` removes the first match.
* ObjectIds (`_id`) are modelled as their canonical 24-hex-character string
  rendering (`str(ObjectId(...))`); `bson.ObjectId.is_valid` and a successful
  `PydanticObjectId(...)` parse on a string both mean: length 24, all hex
  digits.  Freshly assigned ids come from a `nextOid` counter.
* Dates are `DateV` triples; `datetime.strptime(s, "%Y-%m-%d")` is `parseDate`.
* Python `HTTPException(status_code, detail)` is `HErr`; a handler of the code
  becomes `Store -> args -> Store × Except HErr Out`, threading the store so
  that "the store is unchanged on error" is a provable statement.  Each
  `raise` site returns the store exactly as it was at that point of the
  handler, matching the sequential awaits of the source.
* Beanie models: `Pessoa`, `Categoria`, `Memoria`, `Grupo` documents become
  `PessoaDoc`, `CatDoc`, `MemDoc`, `GrupoDoc`.  `Memoria.categoria` and
  `Memoria.pessoa` are embedded documents (the models declare plain
  `Optional[Categoria]` / `Optional[Pessoa]`, not `Link`s), so Beanie queries
  such as `Memoria.find(Memoria.pessoa == pessoa)` compare the whole embedded
  document for equality, while `Memoria.pessoa.id == pessoa.id` (used only in
  `adicionar_pessoa`) compares just the embedded id.
* `model_dump()` of a freshly request-parsed `Categoria` body is
  `{"id": None, "categoria_id": ..., "nome": ...}`: the Beanie `Document.id`
  field defaults to `None` and `model_dump` includes it.  The raw-motor
  categoria router (`src/app/routers/categoria.py`) therefore stores documents
  whose payload key `"id"` is null; `CatDoc.idField` models that key.  A Mongo
  equality query `{"id": v}` with `v = None` matches a null or absent field,
  with an integer `v` it matches only that integer.
* Memoria documents carry no top-level `"categoria_id"` key (the Beanie model
  nests the whole category under `"categoria"`), so the categoria router's
  query `{"categoria_id": v}` matches a memoria exactly when `v` is null;
  `memTopCatIdMatch` encodes this.
* Case-insensitive regex lookups `{"$regex": "^raw$", "$options": "i"}` are
  modelled as ASCII-case-insensitive exact string equality `ciEq`.
* `get_database` is referenced by the categoria router but not defined in
  `src/app/database.py`; it is modelled from the spec as simply handing the
  router the document store (spec section 6, storage collaborator).
-/

namespace MemApi

/-- A calendar date `(year, month, day)`. -/
structure DateV where
  year : Nat
  month : Nat
  day : Nat
deriving DecidableEq, Repr

/-- Stored `Pessoa` document (src/app/models/pessoa.py): unique-indexed `nome`,
`data_nascimento`, and the persisted `memorias` list of titles (the model
declares it as an ordinary document field defaulting to `[]`). -/
structure PessoaDoc where
  oid : String
  nome : String
  dataNascimento : DateV
  memorias : List String
deriving DecidableEq, Repr

/-- Stored categoria document as written by the raw-motor categoria router:
`_id` (`oid`), the payload key `"id"` (`idField`, always `None` for documents
produced by this application, see the header comment), `categoria_id`
(src/app/models/categoria.py) and `nome`. -/
structure CatDoc where
  oid : String
  idField : Option Int
  categoriaId : Int
  nome : String
deriving DecidableEq, Repr

/-- Stored `Memoria` document (src/app/models/memoria.py); `categoria` and
`pessoa` are embedded documents. -/
structure MemDoc where
  oid : String
  titulo : String
  descricao : String
  data : DateV
  emocao : String
  categoria : Option CatDoc
  pessoa : Option PessoaDoc
deriving DecidableEq, Repr

/-- Member snapshot embedded in a `Grupo` document
(`PessoaRef` in src/app/models/grupo.py). -/
structure PessoaRef where
  id : String
  nome : String
  memorias : List String
deriving DecidableEq, Repr

/-- Stored `Grupo` document (src/app/models/grupo.py). -/
structure GrupoDoc where
  oid : String
  nome : String
  pessoas : List PessoaRef
deriving DecidableEq, Repr

/-- The document store: one collection per entity, in insertion order, plus a
counter from which fresh ObjectIds are assigned. -/
structure Store where
  categorias : List CatDoc
  pessoas : List PessoaDoc
  memorias : List MemDoc
  grupos : List GrupoDoc
  nextOid : Nat
deriving DecidableEq, Repr

/-- `fastapi.HTTPException(status_code, detail)`. -/
structure HErr where
  status : Nat
  detail : String
deriving DecidableEq, Repr

/-- Request body of `criar_pessoa`.  The handler source checks
`isinstance(pessoa.data_nascimento, str)` at runtime, so the field is
modelled as either an already-parsed date or a raw string. -/
structure PessoaIn where
  nome : String
  dataNascimento : DateV ⊕ String
  memorias : List String
deriving DecidableEq, Repr

/-- Request body of `criar_categoria` (settable fields of the `Categoria`
model; the Beanie-internal `id` field of the dump is always `None`). -/
structure CatIn where
  categoriaId : Int
  nome : String
deriving DecidableEq, Repr

/-- Request body of `criar_memoria`. -/
structure MemIn where
  titulo : String
  descricao : String
  data : DateV
  emocao : String
  categoria : Option CatDoc
  pessoa : Option PessoaDoc
deriving DecidableEq, Repr

/-- Hexadecimal digit test (`0-9a-fA-F`). -/
def isHexChar (c : Char) : Bool :=
  c.isDigit || ('a' ≤ c && c ≤ 'f') || ('A' ≤ c && c ≤ 'F')

/-- `bson.ObjectId.is_valid(s)` for a string, and equally the success
condition of `PydanticObjectId(s)`: exactly 24 hex characters. -/
def isValidObjectId (s : String) : Bool :=
  s.data.length == 24 && s.data.all isHexChar

/-- Python `str.isdigit()`: non-empty and all decimal digits. -/
def isDigits (s : String) : Bool :=
  !s.data.isEmpty && s.data.all Char.isDigit

/-- Decimal value of a digit list, most significant first. -/
def natOfDigits (cs : List Char) : Nat :=
  cs.foldl (fun n c => n * 10 + (c.toNat - 48)) 0

/-- Python `int(raw)` on an all-digit string. -/
def intOf (s : String) : Int :=
  (natOfDigits s.data : Int)

/-- ASCII-case-insensitive exact equality: the meaning of the Mongo query
`{"$regex": "^raw$", "$options": "i"}` used by the name resolvers. -/
def ciEq (a b : String) : Bool :=
  a.data.map Char.toLower == b.data.map Char.toLower

/-- Canonical 24-character rendering of a freshly assigned ObjectId. -/
def oidOfNat (n : Nat) : String :=
  String.mk (List.replicate (24 - (Nat.repr n).data.length) '0' ++ (Nat.repr n).data)

/-- Remove the first element satisfying the filter: `delete_one(filter)`. -/
def removeFirst (p : α → Bool) : List α → List α
  | [] => []
  | x :: xs => if p x then xs else x :: removeFirst p xs

/-- Sequence a fallible function over a list, stopping at the first raised
exception — the effect of a Python `for` loop whose body may raise. -/
def mapE (f : α → Except HErr β) : List α → Except HErr (List β)
  | [] => .ok []
  | x :: xs =>
    match f x with
    | .error e => .error e
    | .ok y =>
      match mapE f xs with
      | .error e => .error e
      | .ok ys => .ok (y :: ys)

/-- Days in a month, with Gregorian leap years; used by `parseDate`. -/
def daysInMonth (y m : Nat) : Nat :=
  if m == 2 then (if (y % 4 == 0 && y % 100 != 0) || y % 400 == 0 then 29 else 28)
  else if m == 4 || m == 6 || m == 9 || m == 11 then 30 else 31

/-- Split a character list at every occurrence of the separator (the
semantics of Python `str.split(sep)` / Lean `String.splitOn`). -/
def splitOnChar (sep : Char) : List Char → List (List Char)
  | [] => [[]]
  | c :: cs =>
    let r := splitOnChar sep cs
    if c = sep then [] :: r
    else
      match r with
      | [] => [[c]]
      | g :: gs => (c :: g) :: gs

/-- A non-empty all-digit character group. -/
def digitGroup (cs : List Char) : Bool :=
  !cs.isEmpty && cs.all Char.isDigit

/-- `datetime.strptime(s, "%Y-%m-%d").date()`: three dash-separated numeric
components forming a valid calendar date, else failure. -/
def parseDate (s : String) : Option DateV :=
  match splitOnChar '-' s.data with
  | [ys, ms, ds] =>
    if digitGroup ys && digitGroup ms && digitGroup ds then
      let y := natOfDigits ys
      let m := natOfDigits ms
      let d := natOfDigits ds
      if 1 ≤ m && m ≤ 12 && 1 ≤ d && d ≤ daysInMonth y m then some ⟨y, m, d⟩ else none
    else none
  | _ => none

/-- `Mongo` match of the categoria router's query
`db.memorias.find_one({"categoria_id": v})`: memoria documents have no
top-level `categoria_id` key (the model embeds the whole category under
`categoria`), and an equality query on an absent field matches exactly when
the queried value is null. -/
def memTopCatIdMatch (v : Option Int) (_m : MemDoc) : Bool :=
  v == none

/-- `Categoria.get(oid)` / `db.categorias` lookup by `_id`. -/
def catById (s : Store) (o : String) : Option CatDoc :=
  s.categorias.find? (fun c => c.oid == o)

/-- `Pessoa.get(oid)`: lookup by `_id`. -/
def pessoaById (s : Store) (o : String) : Option PessoaDoc :=
  s.pessoas.find? (fun p => p.oid == o)

/-- The identifier resolution shared by the pessoa router
(`try: Pessoa.get(PydanticObjectId(ident)) except: find_one(nome == ident)`,
src/app/routers/pessoa.py lines 62-65) and by the grupo router's
`Union[PydanticObjectId, str]` person parameters (src/app/routers/grupo.py
lines 128-132): an id-shaped string is looked up by `_id`, anything else by
case-sensitive exact `nome`. -/
def resolvePessoaRouter (s : Store) (ident : String) : Option PessoaDoc :=
  if isValidObjectId ident then s.pessoas.find? (fun p => p.oid == ident)
  else s.pessoas.find? (fun p => p.nome == ident)

/-- Grupo resolution (`Grupo.get(ident)` for a `PydanticObjectId`, else
`Grupo.find_one({"nome": ident})`, src/app/routers/grupo.py lines 38-42):
by `_id` when id-shaped, else by case-sensitive exact `nome`. -/
def resolveGrupo (s : Store) (ident : String) : Option GrupoDoc :=
  if isValidObjectId ident then s.grupos.find? (fun g => g.oid == ident)
  else s.grupos.find? (fun g => g.nome == ident)

/-- `Memoria.find(Memoria.pessoa == pessoa)`: all memorias whose embedded
pessoa document equals the given document, in store order. -/
def memoriasDePessoa (s : Store) (p : PessoaDoc) : List MemDoc :=
  s.memorias.filter (fun m => m.pessoa == some p)

/-- `[m.titulo for m in Memoria.find(Memoria.pessoa == pessoa)]`. -/
def titulosDe (s : Store) (p : PessoaDoc) : List String :=
  (memoriasDePessoa s p).map (fun m => m.titulo)

/-- `criar_pessoa` (src/app/routers/pessoa.py lines 11-31): rejects a
duplicate exact `nome` with 400, rejects a string birth date that fails
`strptime("%Y-%m-%d")` with 400, otherwise inserts the person. -/
def criar_pessoa (s : Store) (input : PessoaIn) : Store × Except HErr PessoaDoc :=
  if (s.pessoas.find? (fun p => p.nome == input.nome)).isSome then
    (s, .error ⟨400, "Já existe uma pessoa com este nome"⟩)
  else
    match input.dataNascimento with
    | .inl d =>
      let doc : PessoaDoc := ⟨oidOfNat s.nextOid, input.nome, d, input.memorias⟩
      ({ s with pessoas := s.pessoas ++ [doc], nextOid := s.nextOid + 1 }, .ok doc)
    | .inr raw =>
      match parseDate raw with
      | none => (s, .error ⟨400, "Formato inválido para data de nascimento. Use YYYY-MM-DD."⟩)
      | some d =>
        let doc : PessoaDoc := ⟨oidOfNat s.nextOid, input.nome, d, input.memorias⟩
        ({ s with pessoas := s.pessoas ++ [doc], nextOid := s.nextOid + 1 }, .ok doc)

/-- `obter_pessoa` (src/app/routers/pessoa.py lines 52-73): resolve by id or
exact name, 404 when absent, then return the person with `memorias`
recomputed from the `Memoria` collection; nothing is written back. -/
def obter_pessoa (s : Store) (ident : String) : Store × Except HErr PessoaDoc :=
  match resolvePessoaRouter s ident with
  | none => (s, .error ⟨404, "Pessoa não encontrada"⟩)
  | some p => (s, .ok { p with memorias := titulosDe s p })

/-- `excluir_pessoa` (src/app/routers/pessoa.py lines 99-122): resolve by id
or exact name, 404 when absent, then delete every memoria whose embedded
pessoa equals the resolved document, then delete the person. -/
def excluir_pessoa (s : Store) (ident : String) : Store × Except HErr String :=
  match resolvePessoaRouter s ident with
  | none => (s, .error ⟨404, "Pessoa não encontrada"⟩)
  | some p =>
    let s1 := { s with memorias := s.memorias.filter (fun m => !(m.pessoa == some p)) }
    let s2 := { s1 with pessoas := s1.pessoas.filter (fun q => !(q.oid == p.oid)) }
    (s2, .ok "Pessoa e suas memórias associadas foram excluídas com sucesso")

/-- `criar_memoria` (src/app/routers/memoria.py lines 11-30): if an embedded
pessoa or categoria is supplied, its `_id` must exist in the corresponding
collection (400 otherwise — only existence by id is checked, not that the
embedded copy matches the stored document); then the memoria is inserted. -/
def criar_memoria (s : Store) (input : MemIn) : Store × Except HErr MemDoc :=
  if input.pessoa.any (fun pe => (pessoaById s pe.oid).isNone) then
    (s, .error ⟨400, "Pessoa não encontrada"⟩)
  else if input.categoria.any (fun c => (catById s c.oid).isNone) then
    (s, .error ⟨400, "Categoria não encontrada"⟩)
  else
    let doc : MemDoc :=
      ⟨oidOfNat s.nextOid, input.titulo, input.descricao, input.data, input.emocao,
        input.categoria, input.pessoa⟩
    ({ s with memorias := s.memorias ++ [doc], nextOid := s.nextOid + 1 }, .ok doc)

/-- `criar_categoria` (src/app/routers/categoria.py lines 9-32): the payload
dump always carries `"id": None`, so the uniqueness pre-check
`find_one({"id": categoria_dict["id"]})` matches any already stored category
(400); then the name must have at least 3 characters (422); then insert. -/
def criar_categoria (s : Store) (input : CatIn) : Store × Except HErr CatDoc :=
  if (s.categorias.find? (fun c => c.idField == (none : Option Int))).isSome then
    (s, .error ⟨400, "Já existe uma categoria com este ID"⟩)
  else if input.nome.data.length < 3 then
    (s, .error ⟨422, "O nome da categoria deve ter pelo menos 3 caracteres"⟩)
  else
    let doc : CatDoc := ⟨oidOfNat s.nextOid, none, input.categoriaId, input.nome⟩
    ({ s with categorias := s.categorias ++ [doc], nextOid := s.nextOid + 1 }, .ok doc)

/-- `obter_categoria` (src/app/routers/categoria.py lines 59-83): an id-shaped
identifier queries `_id`; an all-digit identifier queries the payload key
`"id"`; any other identifier performs no query at all, so the handler falls
through to 404.  On success the associated memoria ids are gathered with the
top-level `categoria_id` query (see `memTopCatIdMatch`). -/
def obter_categoria (s : Store) (ident : String) : Store × Except HErr (CatDoc × List String) :=
  let categoria :=
    if isValidObjectId ident then s.categorias.find? (fun c => c.oid == ident)
    else if isDigits ident then s.categorias.find? (fun c => c.idField == some (intOf ident))
    else none
  match categoria with
  | none => (s, .error ⟨404, "Categoria não encontrada"⟩)
  | some c =>
    (s, .ok (c, ((s.memorias.filter (memTopCatIdMatch c.idField)).map (fun m => m.oid))))

/-- `excluir_categoria` (src/app/routers/categoria.py lines 116-146): build a
filter from an id-shaped or all-digit identifier (400 otherwise), 404 when no
category matches, 400 when `find_one({"categoria_id": categoria["id"]})`
finds a memoria, else `delete_one` the category. -/
def excluir_categoria (s : Store) (ident : String) : Store × Except HErr String :=
  let filtro : Option (CatDoc → Bool) :=
    if isValidObjectId ident then some (fun c => c.oid == ident)
    else if isDigits ident then some (fun c => c.idField == some (intOf ident))
    else none
  match filtro with
  | none => (s, .error ⟨400, "Identificador inválido"⟩)
  | some f =>
    match s.categorias.find? f with
    | none => (s, .error ⟨404, "Categoria não encontrada"⟩)
    | some c =>
      if (s.memorias.find? (memTopCatIdMatch c.idField)).isSome then
        (s, .error ⟨400, "Não é possível excluir. Esta categoria possui memórias associadas."⟩)
      else
        ({ s with categorias := removeFirst f s.categorias }, .ok "Categoria excluída com sucesso")

/-- `listar_memorias_por_categoria` (src/app/routers/memoria.py lines
120-150): an all-digit identifier (FastAPI parses it as `int`) resolves the
category by `categoria_id`; anything else — id-shaped strings included —
resolves by case-insensitive exact name.  404 when the category or its
memoria list is empty; the memorias are matched by embedded-document
equality. -/
def listar_memorias_por_categoria (s : Store) (ident : String) : Store × Except HErr (List MemDoc) :=
  let categoria :=
    if isDigits ident then s.categorias.find? (fun c => c.categoriaId == intOf ident)
    else s.categorias.find? (fun c => ciEq c.nome ident)
  match categoria with
  | none => (s, .error ⟨404, "Categoria não encontrada"⟩)
  | some c =>
    let mems := s.memorias.filter (fun m => m.categoria == some c)
    if mems.isEmpty then (s, .error ⟨404, "Nenhuma memória encontrada para esta categoria"⟩)
    else (s, .ok mems)

/-- `listar_memorias_por_pessoa` (src/app/routers/memoria.py lines 153-177):
the parameter annotation `Union[str, PydanticObjectId]` makes the value
always a `str`, so only the `len(identificador) == 24` test selects the id
path; a 24-character non-hex string makes `PydanticObjectId` raise (an
unhandled 500).  Any other string resolves the person by case-insensitive
exact name; 404 when the person or their memoria list is empty. -/
def listar_memorias_por_pessoa (s : Store) (ident : String) : Store × Except HErr (List MemDoc) :=
  if ident.data.length == 24 then
    if isValidObjectId ident then
      match pessoaById s ident with
      | none => (s, .error ⟨404, "Pessoa não encontrada"⟩)
      | some p =>
        let mems := memoriasDePessoa s p
        if mems.isEmpty then (s, .error ⟨404, "Nenhuma memória encontrada para esta pessoa"⟩)
        else (s, .ok mems)
    else (s, .error ⟨500, "InvalidId"⟩)
  else
    match s.pessoas.find? (fun p => ciEq p.nome ident) with
    | none => (s, .error ⟨404, "Pessoa não encontrada"⟩)
    | some p =>
      let mems := memoriasDePessoa s p
      if mems.isEmpty then (s, .error ⟨404, "Nenhuma memória encontrada para esta pessoa"⟩)
      else (s, .ok mems)

/-- Mongo `$text` search over the text-indexed `titulo`, modelled as
case-insensitive whole-word match. -/
def textMatch (termo : String) (m : MemDoc) : Bool :=
  ((splitOnChar ' ' m.titulo.data).map (fun w => w.map Char.toLower)).contains
    (termo.data.map Char.toLower)

/-- `buscar_memorias` (src/app/routers/memoria.py lines 180-199): an empty
search term (falsy in Python) is rejected with status 400; otherwise a
`$text` search runs and an empty result is a 404. -/
def buscar_memorias (s : Store) (termo : String) : Store × Except HErr (List MemDoc) :=
  if termo.data.isEmpty then (s, .error ⟨400, "O termo de busca não pode ser vazio."⟩)
  else
    let mems := s.memorias.filter (textMatch termo)
    if mems.isEmpty then (s, .error ⟨404, "Nenhuma memória encontrada com o termo fornecido."⟩)
    else (s, .ok mems)

/-- `obter_grupo` (src/app/routers/grupo.py lines 27-47). -/
def obter_grupo (s : Store) (ident : String) : Store × Except HErr GrupoDoc :=
  match resolveGrupo s ident with
  | none => (s, .error ⟨404, "Grupo não encontrado"⟩)
  | some g => (s, .ok g)

/-- Fresh member snapshot built by `listar_grupos` for an existing person:
id, name and the titles from `Memoria.find(Memoria.pessoa == pessoa)`. -/
def snapshotOf (s : Store) (p : PessoaDoc) : PessoaRef :=
  ⟨p.oid, p.nome, titulosDe s p⟩

/-- Body of the `listar_grupos` member loop (src/app/routers/grupo.py lines
62-74): `PydanticObjectId(ref.id)` raises on a malformed id (unhandled 500);
a resolved person gets a freshly recomputed snapshot; a missing person leaves
the stale snapshot untouched. -/
def materializeRef (s : Store) (ref : PessoaRef) : Except HErr PessoaRef :=
  if isValidObjectId ref.id then
    match pessoaById s ref.id with
    | some p => .ok (snapshotOf s p)
    | none => .ok ref
  else .error ⟨500, "InvalidId"⟩

/-- The per-group materialization performed by `listar_grupos`. -/
def materializeGrupo (s : Store) (g : GrupoDoc) : Except HErr GrupoDoc :=
  match mapE (materializeRef s) g.pessoas with
  | .error e => .error e
  | .ok novas => .ok { g with pessoas := novas }

/-- `listar_grupos` (src/app/routers/grupo.py lines 50-78): every group is
returned with its member snapshots materialized in memory; no `save` is
issued, so the store is returned unchanged. -/
def listar_grupos (s : Store) : Store × Except HErr (List GrupoDoc) :=
  match mapE (materializeGrupo s) s.grupos with
  | .error e => (s, .error e)
  | .ok gs => (s, .ok gs)

/-- `save()` on a grupo: replace the stored document with the same `_id`. -/
def saveGrupo (s : Store) (g : GrupoDoc) : Store :=
  { s with grupos := s.grupos.map (fun h => if h.oid == g.oid then g else h) }

/-- `adicionar_pessoa` (src/app/routers/grupo.py lines 105-151): resolve the
group and the person (404 when either is missing); when no snapshot with the
person's id is present, append a fresh snapshot — whose titles come from the
id-based query `Memoria.pessoa.id == pessoa.id` — and save; otherwise change
nothing. -/
def adicionar_pessoa (s : Store) (gid pid : String) : Store × Except HErr String :=
  match resolveGrupo s gid, resolvePessoaRouter s pid with
  | some g, some p =>
    if g.pessoas.any (fun r => r.id == p.oid) then
      (s, .ok ("Pessoa " ++ p.nome ++ " e suas memórias foram adicionadas ao grupo " ++ g.nome))
    else
      let mems := s.memorias.filter (fun m => m.pessoa.any (fun q => q.oid == p.oid))
      let ref : PessoaRef := ⟨p.oid, p.nome, mems.map (fun m => m.titulo)⟩
      (saveGrupo s { g with pessoas := g.pessoas ++ [ref] },
        .ok ("Pessoa " ++ p.nome ++ " e suas memórias foram adicionadas ao grupo " ++ g.nome))
  | _, _ => (s, .error ⟨404, "Grupo ou pessoa não encontrado"⟩)

/-- `remover_pessoa` (src/app/routers/grupo.py lines 154-189): resolve the
group and the person (404 when either is missing — so the person lookup runs
before the member list is touched); then keep only snapshots whose id
differs from the resolved person's id, and save. -/
def remover_pessoa (s : Store) (gid pid : String) : Store × Except HErr String :=
  match resolveGrupo s gid, resolvePessoaRouter s pid with
  | some g, some p =>
    (saveGrupo s { g with pessoas := g.pessoas.filter (fun r => !(r.id == p.oid)) },
      .ok ("Pessoa " ++ p.nome ++ " removida do grupo " ++ g.nome))
  | _, _ => (s, .error ⟨404, "Grupo ou pessoa não encontrado"⟩)

/-- One entry of the `listar_pessoas_e_memorias` response. -/
structure MemResumo where
  titulo : String
  descricao : String
deriving DecidableEq, Repr

/-- One person entry of the `listar_pessoas_e_memorias` response. -/
structure PessoaMemOut where
  id : String
  nome : String
  memorias : List MemResumo
deriving DecidableEq, Repr

/-- The response entry `listar_pessoas_e_memorias` builds for a resolved
person. -/
def outOf (s : Store) (p : PessoaDoc) : PessoaMemOut :=
  ⟨p.oid, p.nome, (memoriasDePessoa s p).map (fun m => ⟨m.titulo, m.descricao⟩)⟩

/-- The member loop of `listar_pessoas_e_memorias` (src/app/routers/grupo.py
lines 212-226): malformed snapshot ids make `PydanticObjectId` raise (500);
snapshots whose person no longer exists are silently skipped; the rest
contribute a person-with-memorias entry. -/
def pessoasEMemoriasDe (s : Store) : List PessoaRef → Except HErr (List PessoaMemOut)
  | [] => .ok []
  | ref :: rest =>
    if isValidObjectId ref.id then
      match pessoaById s ref.id with
      | some p =>
        match pessoasEMemoriasDe s rest with
        | .error e => .error e
        | .ok tail => .ok (outOf s p :: tail)
      | none => pessoasEMemoriasDe s rest
    else .error ⟨500, "InvalidId"⟩

/-- `listar_pessoas_e_memorias` (src/app/routers/grupo.py lines 192-229). -/
def listar_pessoas_e_memorias (s : Store) (gid : String) : Store × Except HErr (List PessoaMemOut) :=
  match resolveGrupo s gid with
  | none => (s, .error ⟨404, "Grupo não encontrado"⟩)
  | some g =>
    match pessoasEMemoriasDe s g.pessoas with
    | .error e => (s, .error e)
    | .ok resultado => (s, .ok resultado)

/-- The member-list invariant of claim C7: at most one snapshot per
`person_id`, i.e. the snapshot ids are pairwise distinct. -/
def atMostOnePerId (g : GrupoDoc) : Prop :=
  (g.pessoas.map PessoaRef.id).Nodup

instance (g : GrupoDoc) : Decidable (atMostOnePerId g) := by
  unfold atMostOnePerId; infer_instance

/-- Pure rendering of the `listar_grupos` member-loop body, used to state what
the materialization computes when every snapshot id is well-formed. -/
def matRefPure (s : Store) (ref : PessoaRef) : PessoaRef :=
  match pessoaById s ref.id with
  | none => ref
  | some p => snapshotOf s p

/-! ### Concrete sample data for witnesses and counterexamples -/

/-- A well-formed ObjectId string. -/
def oid1 : String := "507f1f77bcf86cd799439011"

/-- A second well-formed ObjectId string. -/
def oid2 : String := "507f1f77bcf86cd799439012"

/-- A third well-formed ObjectId string. -/
def oid3 : String := "507f1f77bcf86cd799439013"

/-- A well-formed ObjectId string that no stored person carries. -/
def oid9 : String := "507f1f77bcf86cd799439099"

/-- Sample person. -/
def pAna : PessoaDoc := ⟨oid1, "Ana", ⟨1990, 1, 1⟩, []⟩

/-- Sample memoria embedding `pAna` exactly as stored. -/
def mViagem : MemDoc := ⟨oid2, "Viagem", "desc", ⟨2018, 6, 10⟩, "Feliz", none, some pAna⟩

/-- Sample category, as produced by `criar_categoria` (payload id key null). -/
def catViagens : CatDoc := ⟨oid3, none, 5, "Viagens"⟩

/-- Two sample memorias embedding `catViagens`. -/
def mParis : MemDoc := ⟨oid2, "Paris", "desc", ⟨2018, 6, 10⟩, "Feliz", some catViagens, none⟩

/-- Second sample memoria referencing `catViagens`. -/
def mLondres : MemDoc :=
  ⟨"507f1f77bcf86cd799439014", "Londres", "desc", ⟨2019, 6, 10⟩, "Alegre", some catViagens, none⟩

/-- A member snapshot whose person no longer exists. -/
def refGhost : PessoaRef := ⟨oid9, "Ghost", ["old"]⟩

/-- Sample group containing only the stale snapshot. -/
def gTurma : GrupoDoc := ⟨oid3, "Turma", [refGhost]⟩

/-- Store for the person-delete scenario: Ana with one memoria. -/
def sAna : Store := ⟨[], [pAna], [mViagem], [], 30⟩

/-- Store for the category scenarios: Viagens with two memorias. -/
def sCat2 : Store := ⟨[catViagens], [], [mParis, mLondres], [], 30⟩

/-- Store with a category and no memorias. -/
def sCat0 : Store := ⟨[catViagens], [], [], [], 30⟩

/-- Store for the stale-snapshot scenario. -/
def sGhost : Store := ⟨[], [pAna], [mViagem], [gTurma], 30⟩

/-- Empty store. -/
def sEmpty : Store := ⟨[], [], [], [], 0⟩

/-- Group with no members, for the add-twice witness. -/
def gVazio : GrupoDoc := ⟨oid2, "Equipe", []⟩

/-- Store for the add-twice witness. -/
def sEquipe : Store := ⟨[], [pAna], [mViagem], [gVazio], 30⟩

/-- A memoria request whose embedded person has Ana's id but a different
name — accepted by `criar_memoria`, which checks existence by id only. -/
def memInBia : MemIn :=
  ⟨"Praia", "desc", ⟨2020, 1, 1⟩, "Alegre", none, some ⟨oid1, "Bia", ⟨1990, 1, 1⟩, []⟩⟩

/-- Store with only Ana, before creating `memInBia`. -/
def sAnaSolo : Store := ⟨[], [pAna], [], [], 40⟩

/-- The store reached by running `criar_memoria` on `sAnaSolo`. -/
def sAnaStale : Store := (criar_memoria sAnaSolo memInBia).1

/-- A second memoria request for Ana, with a faithful embedded copy. -/
def memInPasseio : MemIn := ⟨"Passeio", "desc", ⟨2021, 1, 1⟩, "Feliz", none, some pAna⟩

/-- The document `criar_memoria` inserts for a request embedding person `p`
and no category. -/
def insertedMemDoc (s : Store) (input : MemIn) (p : PessoaDoc) : MemDoc :=
  ⟨oidOfNat s.nextOid, input.titulo, input.descricao, input.data, input.emocao, none, some p⟩

/-- The store after `criar_memoria` inserts `insertedMemDoc`. -/
def insertedStore (s : Store) (input : MemIn) (p : PessoaDoc) : Store :=
  ⟨s.categorias, s.pessoas, s.memorias ++ [insertedMemDoc s input p], s.grupos, s.nextOid + 1⟩

/-! ### Helper lemmas -/

theorem mapE_ok {α β : Type} (f : α → Except HErr β) (g : α → β) (l : List α)
    (h : ∀ a ∈ l, f a = .ok (g a)) : mapE f l = .ok (l.map g) := by
  induction l with
  | nil => rfl
  | cons x xs ih =>
    have hx := h x (by simp)
    have hxs := ih (fun a ha => h a (by simp [ha]))
    simp [mapE, hx, hxs]

theorem filter_key_len_le_one {α : Type} (key : α → String) (l : List α)
    (hn : (l.map key).Nodup) (v : String) :
    (l.filter (fun r => key r == v)).length ≤ 1 := by
  induction l with
  | nil => simp
  | cons x xs ih =>
    rw [List.map_cons, List.nodup_cons] at hn
    by_cases hx : key x == v
    · have hv : key x = v := by simpa using hx
      have hxs : xs.filter (fun r => key r == v) = [] := by
        rw [List.filter_eq_nil_iff]
        intro a ha hcontra
        have : key a = key x := by simpa [hv] using hcontra
        exact hn.1 (this ▸ List.mem_map_of_mem key ha)
      simp [List.filter_cons, hx, hxs]
    · simpa [List.filter_cons, hx] using ih hn.2

theorem find?_replace_of_nodup {α : Type} (key : α → String) (p : α → Bool) (g g' : α)
    (hkey : key g' = key g) (hp : p g' = true) (l : List α) :
    l.find? p = some g → (l.map key).Nodup →
      (l.map (fun h => if key h == key g then g' else h)).find? p = some g' := by
  induction l with
  | nil => intro h; simp at h
  | cons x xs ih =>
    intro hfind hn
    rw [List.map_cons, List.nodup_cons] at hn
    by_cases hx : p x
    · have hxg : x = g := by
        have := List.find?_cons_of_pos (l := xs) hx
        rw [this] at hfind
        exact Option.some.inj hfind
      subst hxg
      rw [List.map_cons]
      simp only [beq_self_eq_true, if_true]
      exact List.find?_cons_of_pos _ hp
    · have hfind' : xs.find? p = some g := by
        rwa [List.find?_cons_of_neg _ hx] at hfind
      have hgmem := List.mem_of_find?_eq_some hfind'
      have hxkey : (key x == key g) = false := by
        rw [beq_eq_false_iff_ne]
        intro hcontra
        exact hn.1 (hcontra ▸ List.mem_map_of_mem key hgmem)
      rw [List.map_cons]
      simp only [hxkey, Bool.false_eq_true, if_false]
      rw [List.find?_cons_of_neg _ hx]
      exact ih hfind' hn.2

theorem obter_pessoa_eq (s : Store) (ident : String) (p : PessoaDoc)
    (h : resolvePessoaRouter s ident = some p) :
    obter_pessoa s ident = (s, .ok { p with memorias := titulosDe s p }) := by
  unfold obter_pessoa
  rw [h]

theorem mem_of_resolveGrupo {s : Store} {gid : String} {g : GrupoDoc}
    (h : resolveGrupo s gid = some g) : g ∈ s.grupos := by
  unfold resolveGrupo at h
  by_cases hv : isValidObjectId gid = true
  · rw [if_pos hv] at h
    exact List.mem_of_find?_eq_some h
  · rw [if_neg hv] at h
    exact List.mem_of_find?_eq_some h

theorem mem_of_resolvePessoa {s : Store} {pid : String} {p : PessoaDoc}
    (h : resolvePessoaRouter s pid = some p) : p ∈ s.pessoas := by
  unfold resolvePessoaRouter at h
  by_cases hv : isValidObjectId pid = true
  · rw [if_pos hv] at h
    exact List.mem_of_find?_eq_some h
  · rw [if_neg hv] at h
    exact List.mem_of_find?_eq_some h

theorem saveGrupo_mem {s : Store} {gNew g' : GrupoDoc}
    (hg' : g' ∈ (saveGrupo s gNew).grupos) : g' = gNew ∨ g' ∈ s.grupos := by
  unfold saveGrupo at hg'
  obtain ⟨h, hh, heq⟩ := List.mem_map.mp hg'
  by_cases hc : (h.oid == gNew.oid) = true
  · rw [if_pos hc] at heq
    exact Or.inl heq.symm
  · rw [if_neg hc] at heq
    exact Or.inr (heq ▸ hh)

theorem addOne_preserves (g : GrupoDoc) (r : PessoaRef)
    (hn : atMostOnePerId g) (habs : g.pessoas.any (fun x => x.id == r.id) = false) :
    atMostOnePerId { g with pessoas := g.pessoas ++ [r] } := by
  unfold atMostOnePerId at hn ⊢
  rw [List.map_append, List.nodup_append]
  refine ⟨hn, by simp, ?_⟩
  intro a ha hb
  simp only [List.map_cons, List.map_nil, List.mem_singleton] at hb
  subst hb
  obtain ⟨x, hx, hxid⟩ := List.mem_map.mp ha
  have := List.any_eq_false.mp habs x hx
  simp [hxid] at this

theorem remove_preserves (g : GrupoDoc) (p : PessoaRef → Bool)
    (hn : atMostOnePerId g) : atMostOnePerId { g with pessoas := g.pessoas.filter p } := by
  unfold atMostOnePerId at hn ⊢
  exact hn.sublist ((List.filter_sublist g.pessoas).map PessoaRef.id)

theorem resolveGrupo_save {s : Store} {gid : String} {g gNew : GrupoDoc}
    (hres : resolveGrupo s gid = some g)
    (hnodup : (s.grupos.map GrupoDoc.oid).Nodup)
    (hoid : gNew.oid = g.oid) (hnome : gNew.nome = g.nome) :
    resolveGrupo (saveGrupo s gNew) gid = some gNew := by
  unfold resolveGrupo at hres ⊢
  unfold saveGrupo
  by_cases hv : isValidObjectId gid = true
  · rw [if_pos hv] at hres ⊢
    have hp : (fun (h : GrupoDoc) => h.oid == gid) gNew = true := by
      have := List.find?_some hres
      simpa [hoid] using this
    have hrepl := find?_replace_of_nodup GrupoDoc.oid (fun h => h.oid == gid) g gNew hoid hp
      s.grupos hres hnodup
    simp only []
    rw [hoid]
    exact hrepl
  · rw [if_neg hv] at hres ⊢
    have hp : (fun (h : GrupoDoc) => h.nome == gid) gNew = true := by
      have := List.find?_some hres
      simpa [hnome] using this
    have hrepl := find?_replace_of_nodup GrupoDoc.oid (fun h => h.nome == gid) g gNew hoid hp
      s.grupos hres hnodup
    simp only []
    rw [hoid]
    exact hrepl

theorem pessoasEMemoriasDe_ok (s : Store) (refs : List PessoaRef)
    (h : ∀ ref ∈ refs, isValidObjectId ref.id = true) :
    pessoasEMemoriasDe s refs =
      .ok (refs.filterMap (fun ref => (pessoaById s ref.id).map (outOf s))) := by
  induction refs with
  | nil => rfl
  | cons ref rest ih =>
    have hv := h ref (by simp)
    have hrest := ih (fun r hr => h r (by simp [hr]))
    unfold pessoasEMemoriasDe
    rw [if_pos hv]
    cases hpb : pessoaById s ref.id with
    | none => simp [hpb, hrest]
    | some p => simp [hpb, hrest]

/-! ### Claim C1 — Person delete under a Blocked policy -/

/-- Claim C1, counterexample: the Person→Memory relation has no Blocked
mode — deleting Ana, who is referenced by the memoria `mViagem`, does not
return a `ConflictError`; it succeeds and removes both the person and the
memoria. -/
theorem excluir_pessoa_no_block_cex :
    excluir_pessoa sAna "Ana" =
      (⟨[], [], [], [], 30⟩, .ok "Pessoa e suas memórias associadas foram excluídas com sucesso") ∧
    pAna ∈ sAna.pessoas ∧ mViagem ∈ sAna.memorias ∧ mViagem.pessoa = some pAna := by
  refine ⟨rfl, ?_, ?_, rfl⟩ <;> decide

/-- Claim C1 (amended): `excluir_pessoa` has no Blocked mode.  Deleting a
Person that resolves succeeds even when Memories reference them: every
memoria whose embedded pessoa equals the stored person document is deleted
(cascade), then the person; all other persons and memorias, and the
categoria and grupo collections, are unchanged. -/
theorem excluir_pessoa_cascades :
    ∀ (s : Store) (ident : String) (p : PessoaDoc),
      resolvePessoaRouter s ident = some p →
      (excluir_pessoa s ident).2 =
          .ok "Pessoa e suas memórias associadas foram excluídas com sucesso" ∧
      (∀ q ∈ (excluir_pessoa s ident).1.pessoas, q.oid ≠ p.oid) ∧
      (∀ q ∈ s.pessoas, q.oid ≠ p.oid → q ∈ (excluir_pessoa s ident).1.pessoas) ∧
      (∀ m ∈ (excluir_pessoa s ident).1.memorias, m.pessoa ≠ some p) ∧
      (∀ m ∈ s.memorias, m.pessoa ≠ some p → m ∈ (excluir_pessoa s ident).1.memorias) ∧
      (excluir_pessoa s ident).1.categorias = s.categorias ∧
      (excluir_pessoa s ident).1.grupos = s.grupos := by
  intro s ident p h
  have key : excluir_pessoa s ident =
      (⟨s.categorias, s.pessoas.filter (fun q => !(q.oid == p.oid)),
          s.memorias.filter (fun m => !(m.pessoa == some p)), s.grupos, s.nextOid⟩,
        .ok "Pessoa e suas memórias associadas foram excluídas com sucesso") := by
    unfold excluir_pessoa
    rw [h]
  rw [key]
  refine ⟨rfl, ?_, ?_, ?_, ?_, rfl, rfl⟩
  · intro q hq
    have := (List.mem_filter.mp hq).2
    simpa using this
  · intro q hq hne
    exact List.mem_filter.mpr ⟨hq, by simpa using hne⟩
  · intro m hm
    have := (List.mem_filter.mp hm).2
    simpa using this
  · intro m hm hne
    exact List.mem_filter.mpr ⟨hm, by simpa using hne⟩

/-- Witness for `excluir_pessoa_cascades` at the concrete store `sAna`. -/
theorem excluir_pessoa_cascades_witness :
    resolvePessoaRouter sAna "Ana" = some pAna ∧
    (excluir_pessoa sAna "Ana").2 =
        .ok "Pessoa e suas memórias associadas foram excluídas com sucesso" ∧
    (∀ q ∈ (excluir_pessoa sAna "Ana").1.pessoas, q.oid ≠ pAna.oid) :=
  ⟨rfl, (excluir_pessoa_cascades sAna "Ana" pAna rfl).1,
    (excluir_pessoa_cascades sAna "Ana" pAna rfl).2.1⟩

/-! ### Claim C2 — Category delete under a Cascade policy -/

/-- Claim C2, counterexample: the Category→Memory relation has no Cascade
mode — deleting `catViagens`, referenced by the two memorias `mParis` and
`mLondres`, does not delete them: it fails with status 400 and leaves the
store untouched. -/
theorem excluir_categoria_no_cascade_cex :
    excluir_categoria sCat2 oid3 =
      (sCat2, .error ⟨400, "Não é possível excluir. Esta categoria possui memórias associadas."⟩) ∧
    catViagens ∈ sCat2.categorias ∧ catViagens.oid = oid3 ∧
    mParis ∈ sCat2.memorias ∧ mParis.categoria = some catViagens ∧
    mLondres ∈ sCat2.memorias ∧ mLondres.categoria = some catViagens := by
  refine ⟨rfl, ?_, rfl, ?_, rfl, ?_, rfl⟩ <;> decide

/-- Claim C2 (amended): `excluir_categoria` blocks instead of cascading.
Deleting a Category by its id while at least one Memory references it fails
with status 400 (`ConflictError`) and changes nothing; deleting by an
id-shaped identifier that matches no Category fails with status 404
(`NotFoundError`) — in particular a second delete after the Category is
gone. -/
theorem excluir_categoria_block_behavior :
    (∀ (s : Store) (ident : String) (c : CatDoc) (m : MemDoc),
      isValidObjectId ident = true →
      s.categorias.find? (fun d => d.oid == ident) = some c →
      c.idField = none →
      m ∈ s.memorias → m.categoria = some c →
      excluir_categoria s ident =
        (s, .error ⟨400, "Não é possível excluir. Esta categoria possui memórias associadas."⟩)) ∧
    (∀ (s : Store) (ident : String),
      isValidObjectId ident = true →
      s.categorias.find? (fun d => d.oid == ident) = none →
      excluir_categoria s ident = (s, .error ⟨404, "Categoria não encontrada"⟩)) := by
  constructor
  · intro s ident c m hv hfind hid hm _hc
    have hmem : (s.memorias.find? (memTopCatIdMatch c.idField)).isSome := by
      rw [List.find?_isSome]
      exact ⟨m, hm, by simp [memTopCatIdMatch, hid]⟩
    unfold excluir_categoria
    simp [hv, hfind, hmem]
  · intro s ident hv hfind
    unfold excluir_categoria
    simp [hv, hfind]

/-- Witness for `excluir_categoria_block_behavior` at the concrete store
`sCat2`. -/
theorem excluir_categoria_block_behavior_witness :
    (isValidObjectId oid3 = true ∧
      sCat2.categorias.find? (fun d => d.oid == oid3) = some catViagens ∧
      catViagens.idField = none ∧ mParis ∈ sCat2.memorias ∧ mParis.categoria = some catViagens) ∧
    excluir_categoria sCat2 oid3 =
      (sCat2, .error ⟨400, "Não é possível excluir. Esta categoria possui memórias associadas."⟩) ∧
    (isValidObjectId oid9 = true ∧ sCat2.categorias.find? (fun d => d.oid == oid9) = none) ∧
    excluir_categoria sCat2 oid9 = (sCat2, .error ⟨404, "Categoria não encontrada"⟩) :=
  ⟨⟨by decide, rfl, rfl, by decide, rfl⟩,
    excluir_categoria_block_behavior.1 sCat2 oid3 catViagens mParis (by decide) rfl rfl
      (by decide) rfl,
    ⟨by decide, rfl⟩,
    excluir_categoria_block_behavior.2 sCat2 oid9 (by decide) rfl⟩

/-! ### Claim C3 — Case sensitivity of Person/Group name lookups -/

/-- Claim C3, counterexample: looking Ana up by the case-variant `"ANA"`
through `obter_pessoa` does not return her — the name query is
case-sensitive and the handler answers 404. -/
theorem obter_pessoa_case_sensitive_cex :
    pAna ∈ sAna.pessoas ∧ ciEq "ANA" pAna.nome = true ∧
    obter_pessoa sAna "ANA" = (sAna, .error ⟨404, "Pessoa não encontrada"⟩) := by
  refine ⟨?_, rfl, rfl⟩
  decide

/-- Claim C3 (amended): for a non-id-shaped identifier, `obter_pessoa` and
`obter_grupo` query the name by case-SENSITIVE exact match — an exact-name
match is returned, and when no exact match exists (in particular for a mere
case-variant of a stored name) the result is 404.  Only
`listar_memorias_por_pessoa` resolves the person case-insensitively (and
then 404s if the person has no memorias). -/
theorem name_lookup_case_sensitivity :
    (∀ (s : Store) (ident : String) (p : PessoaDoc),
      isValidObjectId ident = false →
      s.pessoas.find? (fun q => q.nome == ident) = some p →
      obter_pessoa s ident = (s, .ok { p with memorias := titulosDe s p })) ∧
    (∀ (s : Store) (ident : String),
      isValidObjectId ident = false →
      s.pessoas.find? (fun q => q.nome == ident) = none →
      obter_pessoa s ident = (s, .error ⟨404, "Pessoa não encontrada"⟩)) ∧
    (∀ (s : Store) (ident : String),
      isValidObjectId ident = false →
      s.grupos.find? (fun g => g.nome == ident) = none →
      obter_grupo s ident = (s, .error ⟨404, "Grupo não encontrado"⟩)) ∧
    (∀ (s : Store) (ident : String) (p : PessoaDoc),
      (ident.data.length == 24) = false →
      s.pessoas.find? (fun q => ciEq q.nome ident) = some p →
      listar_memorias_por_pessoa s ident =
        (if (memoriasDePessoa s p).isEmpty
          then (s, .error ⟨404, "Nenhuma memória encontrada para esta pessoa"⟩)
          else (s, .ok (memoriasDePessoa s p)))) := by
  refine ⟨?_, ?_, ?_, ?_⟩
  · intro s ident p hv hfind
    unfold obter_pessoa resolvePessoaRouter
    simp [hv, hfind]
  · intro s ident hv hfind
    unfold obter_pessoa resolvePessoaRouter
    simp [hv, hfind]
  · intro s ident hv hfind
    unfold obter_grupo resolveGrupo
    simp [hv, hfind]
  · intro s ident p h24 hfind
    unfold listar_memorias_por_pessoa
    simp only [h24, hfind]
    rfl

/-- Witness for `name_lookup_case_sensitivity`: the case-variant `"ANA"`
404s in `obter_pessoa` but resolves Ana in `listar_memorias_por_pessoa`. -/
theorem name_lookup_case_sensitivity_witness :
    (isValidObjectId "ANA" = false ∧
      sAna.pessoas.find? (fun q => q.nome == "ANA") = none ∧
      sAna.pessoas.find? (fun q => ciEq q.nome "ANA") = some pAna) ∧
    obter_pessoa sAna "ANA" = (sAna, .error ⟨404, "Pessoa não encontrada"⟩) ∧
    listar_memorias_por_pessoa sAna "ANA" = (sAna, .ok [mViagem]) :=
  ⟨⟨rfl, rfl, rfl⟩,
    name_lookup_case_sensitivity.2.1 sAna "ANA" rfl rfl,
    (name_lookup_case_sensitivity.2.2.2 sAna "ANA" pAna rfl rfl).trans rfl⟩

/-! ### Claim C4 — The Category identifier resolver -/

/-- Claim C4, counterexample: with `catViagens` (business id 5, name
`"Viagens"`) stored, `obter_categoria` finds nothing for the all-digit raw
identifier `"5"` (its numeric branch queries the payload key `id`, not the
business id) and finds nothing for a plain name either (it has no name
branch at all). -/
theorem obter_categoria_resolver_cex :
    catViagens ∈ sCat0.categorias ∧ catViagens.categoriaId = 5 ∧
    ciEq catViagens.nome "viagens" = true ∧
    obter_categoria sCat0 "5" = (sCat0, .error ⟨404, "Categoria não encontrada"⟩) ∧
    obter_categoria sCat0 "viagens" = (sCat0, .error ⟨404, "Categoria não encontrada"⟩) := by
  refine ⟨?_, rfl, rfl, rfl, rfl⟩
  decide

/-- Claim C4 (amended): the two Category lookups disagree with the claimed
resolver and with each other.  `obter_categoria`: an id-shaped identifier is
an exact `_id` query; an all-digit identifier queries the stored payload key
`id`, which the application never stores as an integer, so on such stores
the lookup always 404s; any other identifier performs no query and 404s.
`listar_memorias_por_categoria`: an all-digit identifier is a genuine
`categoria_id` (business id) query; everything else — id-shaped strings
included — is a case-insensitive exact name query. -/
theorem categoria_resolver_behavior :
    (∀ (s : Store) (ident : String) (c : CatDoc),
      isValidObjectId ident = true →
      s.categorias.find? (fun d => d.oid == ident) = some c →
      obter_categoria s ident =
        (s, .ok (c, (s.memorias.filter (memTopCatIdMatch c.idField)).map (fun m => m.oid)))) ∧
    (∀ (s : Store) (ident : String),
      isValidObjectId ident = false → isDigits ident = true →
      (∀ c ∈ s.categorias, c.idField = none) →
      obter_categoria s ident = (s, .error ⟨404, "Categoria não encontrada"⟩)) ∧
    (∀ (s : Store) (ident : String),
      isValidObjectId ident = false → isDigits ident = false →
      obter_categoria s ident = (s, .error ⟨404, "Categoria não encontrada"⟩)) ∧
    (∀ (s : Store) (ident : String) (c : CatDoc),
      isDigits ident = true →
      s.categorias.find? (fun d => d.categoriaId == intOf ident) = some c →
      listar_memorias_por_categoria s ident =
        (if (s.memorias.filter (fun m => m.categoria == some c)).isEmpty
          then (s, .error ⟨404, "Nenhuma memória encontrada para esta categoria"⟩)
          else (s, .ok (s.memorias.filter (fun m => m.categoria == some c))))) ∧
    (∀ (s : Store) (ident : String) (c : CatDoc),
      isDigits ident = false →
      s.categorias.find? (fun d => ciEq d.nome ident) = some c →
      listar_memorias_por_categoria s ident =
        (if (s.memorias.filter (fun m => m.categoria == some c)).isEmpty
          then (s, .error ⟨404, "Nenhuma memória encontrada para esta categoria"⟩)
          else (s, .ok (s.memorias.filter (fun m => m.categoria == some c))))) := by
  refine ⟨?_, ?_, ?_, ?_, ?_⟩
  · intro s ident c hv hfind
    unfold obter_categoria
    simp [hv, hfind]
  · intro s ident hv hd hall
    have hfind : s.categorias.find? (fun d => d.idField == some (intOf ident)) = none := by
      rw [List.find?_eq_none]
      intro c hc
      simp [hall c hc]
    unfold obter_categoria
    simp [hv, hd, hfind]
  · intro s ident hv hd
    unfold obter_categoria
    simp [hv, hd]
  · intro s ident c hd hfind
    unfold listar_memorias_por_categoria
    simp only [hd, hfind]
    all_goals rfl
  · intro s ident c hd hfind
    unfold listar_memorias_por_categoria
    simp only [hd, hfind, Bool.false_eq_true, if_false]

/-- Witness for `categoria_resolver_behavior`: the `_id` lookup and both
`listar_memorias_por_categoria` branches at concrete stores. -/
theorem categoria_resolver_behavior_witness :
    (isValidObjectId oid3 = true ∧
      sCat2.categorias.find? (fun d => d.oid == oid3) = some catViagens ∧
      isDigits "5" = true ∧
      sCat2.categorias.find? (fun d => d.categoriaId == intOf "5") = some catViagens ∧
      isDigits "vIAGENS" = false ∧
      sCat2.categorias.find? (fun d => ciEq d.nome "vIAGENS") = some catViagens) ∧
    obter_categoria sCat2 oid3 = (sCat2, .ok (catViagens, [mParis.oid, mLondres.oid])) ∧
    listar_memorias_por_categoria sCat2 "5" = (sCat2, .ok [mParis, mLondres]) ∧
    listar_memorias_por_categoria sCat2 "vIAGENS" = (sCat2, .ok [mParis, mLondres]) :=
  ⟨⟨by decide, rfl, by decide, rfl, by decide, rfl⟩,
    (categoria_resolver_behavior.1 sCat2 oid3 catViagens (by decide) rfl).trans rfl,
    (categoria_resolver_behavior.2.2.2.1 sCat2 "5" catViagens (by decide) rfl).trans rfl,
    (categoria_resolver_behavior.2.2.2.2 sCat2 "vIAGENS" catViagens (by decide) rfl).trans rfl⟩

/-! ### Claim C5 — Materialization of a Person's memory titles -/

/-- Claim C5, counterexample: `memInBia` is accepted by `criar_memoria`
(existence of the embedded person is checked by id only), producing a stored
Memory whose person REFERENCE (id) equals Ana's id, with title `"Praia"`;
yet `obter_pessoa` materializes Ana's `memorias` as `[]`, because the query
compares whole embedded documents and the embedded copy has a different
name.  So `memory_titles` does not equal the titles of all Memories whose
person reference equals Ana's id. -/
theorem materialize_person_doc_equality_cex :
    (criar_memoria sAnaSolo memInBia).2 =
      .ok ⟨oidOfNat 40, "Praia", "desc", ⟨2020, 1, 1⟩, "Alegre", none,
        some ⟨oid1, "Bia", ⟨1990, 1, 1⟩, []⟩⟩ ∧
    (obter_pessoa sAnaStale "Ana").2 = .ok pAna ∧
    ((sAnaStale.memorias.filter
        (fun m => m.pessoa.any (fun q => q.oid == pAna.oid))).map (fun m => m.titulo))
      = ["Praia"] :=
  ⟨rfl, rfl, rfl⟩

/-- Claim C5 (amended): `obter_pessoa` recomputes `memorias` on every call
as the titles of the memorias whose embedded pessoa document equals the
stored person document (not merely whose reference id matches), in store
(insertion) order, without writing anything back; after `criar_memoria`
inserts a new memoria embedding the person exactly, the next call reflects
it with no refresh. -/
theorem materialize_person_fresh :
    (∀ (s : Store) (ident : String) (p : PessoaDoc),
      resolvePessoaRouter s ident = some p →
      obter_pessoa s ident = (s, .ok { p with memorias := titulosDe s p })) ∧
    (∀ (s : Store) (ident : String) (p : PessoaDoc) (input : MemIn),
      resolvePessoaRouter s ident = some p →
      input.pessoa = some p → input.categoria = none →
      criar_memoria s input = (insertedStore s input p, .ok (insertedMemDoc s input p)) ∧
      obter_pessoa (insertedStore s input p) ident =
        (insertedStore s input p,
          .ok { p with memorias := titulosDe s p ++ [input.titulo] })) := by
  constructor
  · intro s ident p h
    exact obter_pessoa_eq s ident p h
  · intro s ident p input h hp hc
    have hpmem : p ∈ s.pessoas := by
      unfold resolvePessoaRouter at h
      by_cases hv : isValidObjectId ident = true
      · rw [if_pos hv] at h
        exact List.mem_of_find?_eq_some h
      · rw [if_neg hv] at h
        exact List.mem_of_find?_eq_some h
    have hsome : (pessoaById s p.oid).isSome := by
      rw [pessoaById, List.find?_isSome]
      exact ⟨p, hpmem, by simp⟩
    obtain ⟨q, hq⟩ := Option.isSome_iff_exists.mp hsome
    constructor
    · unfold criar_memoria
      rw [hp, hc]
      simp [hq]
      exact ⟨rfl, rfl⟩
    · have h' : resolvePessoaRouter (insertedStore s input p) ident = some p := h
      have htit : titulosDe (insertedStore s input p) p = titulosDe s p ++ [input.titulo] := by
        unfold titulosDe memoriasDePessoa insertedStore insertedMemDoc
        simp [List.filter_append]
      rw [obter_pessoa_eq _ _ _ h', htit]

/-- Witness for `materialize_person_fresh` at `sAna`: the second call after
inserting `memInPasseio` reflects the new title. -/
theorem materialize_person_fresh_witness :
    (resolvePessoaRouter sAna "Ana" = some pAna ∧ memInPasseio.pessoa = some pAna ∧
      memInPasseio.categoria = none) ∧
    obter_pessoa sAna "Ana" = (sAna, .ok ⟨oid1, "Ana", ⟨1990, 1, 1⟩, ["Viagem"]⟩) ∧
    obter_pessoa (criar_memoria sAna memInPasseio).1 "Ana" =
      ((criar_memoria sAna memInPasseio).1,
        .ok ⟨oid1, "Ana", ⟨1990, 1, 1⟩, ["Viagem", "Passeio"]⟩) :=
  ⟨⟨rfl, rfl, rfl⟩,
    (materialize_person_fresh.1 sAna "Ana" pAna rfl).trans rfl,
    ((materialize_person_fresh.2 sAna "Ana" pAna memInPasseio rfl rfl rfl).2).trans rfl⟩

/-! ### Claim C8 — Category uniqueness conflicts -/

/-- Claim C8: once a Category exists, creating a second Category with the
same `business_id` (`categoria_id`), or with a case-variant of its name,
fails with status 400 (`ConflictError`).  In the code this holds because the
pre-check `find_one({"id": categoria_dict["id"]})` compares the payload key
`id`, which is null on every stored category and on every request, so any
existing category makes every further create conflict — in particular the
two duplicate shapes named by the claim. -/
theorem criar_categoria_unique_conflict :
    ∀ (s : Store) (c : CatDoc) (input : CatIn),
      c ∈ s.categorias → c.idField = none →
      (input.categoriaId = c.categoriaId ∨ ciEq input.nome c.nome = true) →
      criar_categoria s input = (s, .error ⟨400, "Já existe uma categoria com este ID"⟩) := by
  intro s c input hc hid _hdup
  have hfind : (s.categorias.find? (fun d => d.idField == (none : Option Int))).isSome := by
    rw [List.find?_isSome]
    exact ⟨c, hc, by simp [hid]⟩
  unfold criar_categoria
  simp [hfind]

/-- Witness for `criar_categoria_unique_conflict`: same `business_id` and a
case-variant name against the stored `catViagens`. -/
theorem criar_categoria_unique_conflict_witness :
    (catViagens ∈ sCat0.categorias ∧ catViagens.idField = none ∧
      ((5 : Int) = catViagens.categoriaId ∨ ciEq "VIAGENS" catViagens.nome = true)) ∧
    criar_categoria sCat0 ⟨5, "VIAGENS"⟩ =
      (sCat0, .error ⟨400, "Já existe uma categoria com este ID"⟩) :=
  ⟨⟨by decide, rfl, Or.inl rfl⟩,
    criar_categoria_unique_conflict sCat0 catViagens ⟨5, "VIAGENS"⟩ (by decide) rfl (Or.inl rfl)⟩

/-! ### Claim C9 — Status codes of field-constraint violations -/

/-- Claim C9, counterexample: an empty search term is a field-constraint
violation, yet `buscar_memorias` surfaces it with status 400 — the status
the API otherwise uses for conflicts — not 422. -/
theorem empty_search_term_not_422_cex :
    buscar_memorias sEmpty "" = (sEmpty, .error ⟨400, "O termo de busca não pode ser vazio."⟩) ∧
    (400 : Nat) ≠ 422 :=
  ⟨rfl, by decide⟩

/-- Claim C9 (amended): field-constraint violations are not uniformly 422.
The category name-length check does return 422, but `criar_pessoa` rejects a
malformed birth-date string with status 400, and `buscar_memorias` rejects
an empty search term with status 400 — the same status used for
conflicts. -/
theorem validation_status_codes :
    (∀ s : Store,
      buscar_memorias s "" = (s, .error ⟨400, "O termo de busca não pode ser vazio."⟩)) ∧
    (∀ (s : Store) (input : CatIn),
      s.categorias.find? (fun d => d.idField == (none : Option Int)) = none →
      input.nome.data.length < 3 →
      criar_categoria s input =
        (s, .error ⟨422, "O nome da categoria deve ter pelo menos 3 caracteres"⟩)) ∧
    (∀ (s : Store) (input : PessoaIn) (raw : String),
      s.pessoas.find? (fun p => p.nome == input.nome) = none →
      input.dataNascimento = Sum.inr raw → parseDate raw = none →
      criar_pessoa s input =
        (s, .error ⟨400, "Formato inválido para data de nascimento. Use YYYY-MM-DD."⟩)) := by
  refine ⟨fun s => rfl, ?_, ?_⟩
  · intro s input hfind hlen
    unfold criar_categoria
    simp [hfind, hlen]
    exact hlen
  · intro s input raw hfind hdn hparse
    unfold criar_pessoa
    simp [hfind, hdn, hparse]

/-- Witness for `validation_status_codes` at concrete inputs on the empty
store. -/
theorem validation_status_codes_witness :
    (sEmpty.categorias.find? (fun d => d.idField == (none : Option Int)) = none ∧
      ("ab" : String).data.length < 3 ∧ parseDate "xx" = none) ∧
    criar_categoria sEmpty ⟨9, "ab"⟩ =
      (sEmpty, .error ⟨422, "O nome da categoria deve ter pelo menos 3 caracteres"⟩) ∧
    criar_pessoa sEmpty ⟨"Bia", Sum.inr "xx", []⟩ =
      (sEmpty, .error ⟨400, "Formato inválido para data de nascimento. Use YYYY-MM-DD."⟩) :=
  ⟨⟨rfl, by decide, rfl⟩,
    validation_status_codes.2.1 sEmpty ⟨9, "ab"⟩ rfl (by decide),
    validation_status_codes.2.2 sEmpty ⟨"Bia", Sum.inr "xx", []⟩ "xx" rfl rfl rfl⟩

/-! ### Claim C6 — Stale member snapshots during group materialization -/

/-- Claim C6, counterexample: `sGhost` holds a group whose only member
snapshot points to a deleted person; `listar_pessoas_e_memorias` succeeds
but returns the empty list — the stale snapshot is dropped from the result,
not passed through unchanged. -/
theorem listar_pessoas_e_memorias_drops_stale_cex :
    refGhost ∈ gTurma.pessoas ∧ isValidObjectId refGhost.id = true ∧
    pessoaById sGhost refGhost.id = none ∧
    (listar_pessoas_e_memorias sGhost "Turma").2 = .ok [] := by
  refine ⟨?_, rfl, rfl, rfl⟩
  decide

/-- Claim C6 (amended): the two group materializations disagree.
`listar_grupos` keeps a stale snapshot unchanged and overwrites the snapshot
of a still-existing person with a freshly recomputed one; but
`listar_pessoas_e_memorias` silently omits members whose person no longer
exists from its result (while still succeeding). -/
theorem materialize_group_staleness :
    (∀ (s : Store) (ref : PessoaRef),
      isValidObjectId ref.id = true → pessoaById s ref.id = none →
      materializeRef s ref = .ok ref) ∧
    (∀ (s : Store) (ref : PessoaRef) (p : PessoaDoc),
      isValidObjectId ref.id = true → pessoaById s ref.id = some p →
      materializeRef s ref = .ok (snapshotOf s p)) ∧
    (∀ s : Store,
      (∀ g ∈ s.grupos, ∀ ref ∈ g.pessoas, isValidObjectId ref.id = true) →
      listar_grupos s =
        (s, .ok (s.grupos.map (fun g => { g with pessoas := g.pessoas.map (matRefPure s) })))) ∧
    (∀ (s : Store) (gid : String) (g : GrupoDoc),
      resolveGrupo s gid = some g →
      (∀ ref ∈ g.pessoas, isValidObjectId ref.id = true) →
      listar_pessoas_e_memorias s gid =
        (s, .ok (g.pessoas.filterMap (fun ref => (pessoaById s ref.id).map (outOf s))))) := by
  have hrefok : ∀ (s : Store) (ref : PessoaRef), isValidObjectId ref.id = true →
      materializeRef s ref = .ok (matRefPure s ref) := by
    intro s ref hv
    unfold materializeRef matRefPure
    rw [if_pos hv]
    cases pessoaById s ref.id with
    | none => rfl
    | some p => rfl
  refine ⟨?_, ?_, ?_, ?_⟩
  · intro s ref hv hnone
    have := hrefok s ref hv
    rw [this]
    unfold matRefPure
    rw [hnone]
  · intro s ref p hv hsome
    have := hrefok s ref hv
    rw [this]
    unfold matRefPure
    rw [hsome]
  · intro s hvalid
    have hmat : ∀ g ∈ s.grupos,
        materializeGrupo s g = .ok { g with pessoas := g.pessoas.map (matRefPure s) } := by
      intro g hg
      unfold materializeGrupo
      rw [mapE_ok (materializeRef s) (matRefPure s) g.pessoas
        (fun ref hr => hrefok s ref (hvalid g hg ref hr))]
    unfold listar_grupos
    rw [mapE_ok (materializeGrupo s)
      (fun g => { g with pessoas := g.pessoas.map (matRefPure s) }) s.grupos hmat]
  · intro s gid g hres hvalid
    unfold listar_pessoas_e_memorias
    rw [hres]
    simp [pessoasEMemoriasDe_ok s g.pessoas hvalid]

/-- Witness for `materialize_group_staleness` at the concrete store
`sGhost`: `listar_grupos` returns the group with Ghost's snapshot intact,
`listar_pessoas_e_memorias` returns the empty list. -/
theorem materialize_group_staleness_witness :
    (isValidObjectId refGhost.id = true ∧ pessoaById sGhost refGhost.id = none ∧
      resolveGrupo sGhost "Turma" = some gTurma ∧
      (∀ g ∈ sGhost.grupos, ∀ ref ∈ g.pessoas, isValidObjectId ref.id = true)) ∧
    materializeRef sGhost refGhost = .ok refGhost ∧
    listar_grupos sGhost = (sGhost, .ok [gTurma]) ∧
    listar_pessoas_e_memorias sGhost "Turma" = (sGhost, .ok []) :=
  ⟨⟨rfl, rfl, rfl, by decide⟩,
    materialize_group_staleness.1 sGhost refGhost rfl rfl,
    (materialize_group_staleness.2.2.1 sGhost (by decide)).trans rfl,
    (materialize_group_staleness.2.2.2 sGhost "Turma" gTurma rfl (by decide)).trans rfl⟩

/-! ### Claim C7 — At most one member snapshot per person id -/

/-- Claim C7: `adicionar_pessoa` and `remover_pessoa` preserve the invariant
that a group's member snapshot list has at most one entry per person id, and
adding the same person twice in a row is idempotent: afterwards the resolved
group holds exactly one snapshot carrying that person's id. -/
theorem member_snapshot_uniqueness :
    (∀ (s : Store) (gid pid : String),
      (∀ g ∈ s.grupos, atMostOnePerId g) →
      ∀ g' ∈ ((adicionar_pessoa s gid pid).1).grupos, atMostOnePerId g') ∧
    (∀ (s : Store) (gid pid : String),
      (∀ g ∈ s.grupos, atMostOnePerId g) →
      ∀ g' ∈ ((remover_pessoa s gid pid).1).grupos, atMostOnePerId g') ∧
    (∀ (s : Store) (gid pid : String) (g : GrupoDoc) (p : PessoaDoc),
      resolveGrupo s gid = some g → resolvePessoaRouter s pid = some p →
      (s.grupos.map GrupoDoc.oid).Nodup → atMostOnePerId g →
      ∃ g₂,
        resolveGrupo ((adicionar_pessoa (adicionar_pessoa s gid pid).1 gid pid).1) gid
          = some g₂ ∧
        (g₂.pessoas.filter (fun r => r.id == p.oid)).length = 1) := by
  refine ⟨?_, ?_, ?_⟩
  · intro s gid pid hinv g' hg'
    rcases hg : resolveGrupo s gid with _ | g
    · have hstore : (adicionar_pessoa s gid pid).1 = s := by
        unfold adicionar_pessoa
        cases resolvePessoaRouter s pid <;> rw [hg]
      rw [hstore] at hg'
      exact hinv g' hg'
    · rcases hp : resolvePessoaRouter s pid with _ | p
      · have hstore : (adicionar_pessoa s gid pid).1 = s := by
          unfold adicionar_pessoa
          rw [hg, hp]
        rw [hstore] at hg'
        exact hinv g' hg'
      · cases hAny : g.pessoas.any (fun r => r.id == p.oid) with
        | true =>
          have hstore : (adicionar_pessoa s gid pid).1 = s := by
            unfold adicionar_pessoa
            simp [hg, hp, hAny]
          rw [hstore] at hg'
          exact hinv g' hg'
        | false =>
          have hstore : (adicionar_pessoa s gid pid).1 =
              saveGrupo s { g with pessoas := g.pessoas ++
                [⟨p.oid, p.nome,
                  (s.memorias.filter (fun m => m.pessoa.any (fun q => q.oid == p.oid))).map
                    (fun m => m.titulo)⟩] } := by
            unfold adicionar_pessoa
            simp [hg, hp, hAny]
          rw [hstore] at hg'
          rcases saveGrupo_mem hg' with heq | hmem
          · rw [heq]
            exact addOne_preserves g _ (hinv g (mem_of_resolveGrupo hg)) hAny
          · exact hinv g' hmem
  · intro s gid pid hinv g' hg'
    rcases hg : resolveGrupo s gid with _ | g
    · have hstore : (remover_pessoa s gid pid).1 = s := by
        unfold remover_pessoa
        cases resolvePessoaRouter s pid <;> rw [hg]
      rw [hstore] at hg'
      exact hinv g' hg'
    · rcases hp : resolvePessoaRouter s pid with _ | p
      · have hstore : (remover_pessoa s gid pid).1 = s := by
          unfold remover_pessoa
          rw [hg, hp]
        rw [hstore] at hg'
        exact hinv g' hg'
      · have hstore : (remover_pessoa s gid pid).1 =
            saveGrupo s { g with pessoas := g.pessoas.filter (fun r => !(r.id == p.oid)) } := by
          unfold remover_pessoa
          rw [hg, hp]
        rw [hstore] at hg'
        rcases saveGrupo_mem hg' with heq | hmem
        · rw [heq]
          exact remove_preserves g _ (hinv g (mem_of_resolveGrupo hg))
        · exact hinv g' hmem
  · intro s gid pid g p hg hp hnodup hone
    cases hAny : g.pessoas.any (fun r => r.id == p.oid) with
    | true =>
      have hstore : (adicionar_pessoa s gid pid).1 = s := by
        unfold adicionar_pessoa
        simp [hg, hp, hAny]
      obtain ⟨r, hr, hrid⟩ := List.any_eq_true.mp hAny
      have hlen1 : 1 ≤ (g.pessoas.filter (fun r => r.id == p.oid)).length :=
        List.length_pos_of_mem (List.mem_filter.mpr ⟨hr, hrid⟩)
      have hlen2 := filter_key_len_le_one PessoaRef.id g.pessoas hone p.oid
      refine ⟨g, ?_, Nat.le_antisymm hlen2 hlen1⟩
      rw [hstore, hstore]
      exact hg
    | false =>
      have hstore : (adicionar_pessoa s gid pid).1 =
          saveGrupo s { g with pessoas := g.pessoas ++
            [⟨p.oid, p.nome,
              (s.memorias.filter (fun m => m.pessoa.any (fun q => q.oid == p.oid))).map
                (fun m => m.titulo)⟩] } := by
        unfold adicionar_pessoa
        simp [hg, hp, hAny]
      have hres1 : resolveGrupo
          (saveGrupo s { g with pessoas := g.pessoas ++
            [⟨p.oid, p.nome,
              (s.memorias.filter (fun m => m.pessoa.any (fun q => q.oid == p.oid))).map
                (fun m => m.titulo)⟩] }) gid
          = some { g with pessoas := g.pessoas ++
            [⟨p.oid, p.nome,
              (s.memorias.filter (fun m => m.pessoa.any (fun q => q.oid == p.oid))).map
                (fun m => m.titulo)⟩] } :=
        resolveGrupo_save hg hnodup rfl rfl
      have hp1 : resolvePessoaRouter
          (saveGrupo s { g with pessoas := g.pessoas ++
            [⟨p.oid, p.nome,
              (s.memorias.filter (fun m => m.pessoa.any (fun q => q.oid == p.oid))).map
                (fun m => m.titulo)⟩] }) pid = some p := hp
      have hAny2 : ({ g with pessoas := g.pessoas ++
            [⟨p.oid, p.nome,
              (s.memorias.filter (fun m => m.pessoa.any (fun q => q.oid == p.oid))).map
                (fun m => m.titulo)⟩] } : GrupoDoc).pessoas.any (fun r => r.id == p.oid)
          = true := by
        simp [List.any_append]
      have hstore2 : (adicionar_pessoa
          (saveGrupo s { g with pessoas := g.pessoas ++
            [⟨p.oid, p.nome,
              (s.memorias.filter (fun m => m.pessoa.any (fun q => q.oid == p.oid))).map
                (fun m => m.titulo)⟩] }) gid pid).1
          = saveGrupo s { g with pessoas := g.pessoas ++
            [⟨p.oid, p.nome,
              (s.memorias.filter (fun m => m.pessoa.any (fun q => q.oid == p.oid))).map
                (fun m => m.titulo)⟩] } := by
        unfold adicionar_pessoa
        simp [hres1, hp1, hAny2]
      have hnilf : g.pessoas.filter (fun r => r.id == p.oid) = [] := by
        rw [List.filter_eq_nil_iff]
        intro r hr
        simpa using List.any_eq_false.mp hAny r hr
      refine ⟨({ g with pessoas := g.pessoas ++
          [(⟨p.oid, p.nome,
            (s.memorias.filter (fun m => m.pessoa.any (fun q => q.oid == p.oid))).map
              (fun m => m.titulo)⟩ : PessoaRef)] } : GrupoDoc), ?_, ?_⟩
      · rw [hstore, hstore2]
        exact hres1
      · show ((g.pessoas ++
            [(⟨p.oid, p.nome,
              (s.memorias.filter (fun m => m.pessoa.any (fun q => q.oid == p.oid))).map
                (fun m => m.titulo)⟩ : PessoaRef)]).filter (fun r => r.id == p.oid)).length = 1
        rw [List.filter_append, hnilf]
        simp

/-- Witness for `member_snapshot_uniqueness` at the concrete store
`sEquipe`: adding Ana to the empty group twice leaves exactly one snapshot
with her id. -/
theorem member_snapshot_uniqueness_witness :
    (resolveGrupo sEquipe "Equipe" = some gVazio ∧
      resolvePessoaRouter sEquipe "Ana" = some pAna ∧
      (sEquipe.grupos.map GrupoDoc.oid).Nodup ∧ atMostOnePerId gVazio) ∧
    (∃ g₂,
      resolveGrupo
        ((adicionar_pessoa (adicionar_pessoa sEquipe "Equipe" "Ana").1 "Equipe" "Ana").1)
        "Equipe" = some g₂ ∧
      (g₂.pessoas.filter (fun r => r.id == pAna.oid)).length = 1) :=
  ⟨⟨rfl, rfl, by decide, by decide⟩,
    member_snapshot_uniqueness.2.2 sEquipe "Equipe" "Ana" gVazio pAna rfl rfl
      (by decide) (by decide)⟩

/-! ### Claim C10 — Member operations resolve the Person first -/

/-- Claim C10: `adicionar_pessoa` and `remover_pessoa` resolve the Person in
the authoritative `pessoas` collection and fail with 404 (`NotFoundError`)
when it does not resolve, leaving the store untouched; consequently a stale
member snapshot whose person was deleted survives every `remover_pessoa`
call — the person lookup fails (or resolves to a person with a different
id) before the member list is filtered. -/
theorem member_ops_resolve_person_first :
    (∀ (s : Store) (gid pid : String),
      resolvePessoaRouter s pid = none →
      adicionar_pessoa s gid pid = (s, .error ⟨404, "Grupo ou pessoa não encontrado"⟩) ∧
      remover_pessoa s gid pid = (s, .error ⟨404, "Grupo ou pessoa não encontrado"⟩)) ∧
    (∀ (s : Store) (gid pid : String) (g : GrupoDoc) (ref : PessoaRef),
      (s.grupos.map GrupoDoc.oid).Nodup →
      g ∈ s.grupos → ref ∈ g.pessoas → pessoaById s ref.id = none →
      ∃ g', g' ∈ ((remover_pessoa s gid pid).1).grupos ∧ ref ∈ g'.pessoas) := by
  constructor
  · intro s gid pid hnone
    rcases hg : resolveGrupo s gid with _ | g <;>
      exact ⟨by unfold adicionar_pessoa; rw [hg, hnone],
        by unfold remover_pessoa; rw [hg, hnone]⟩
  · intro s gid pid g ref hnodup hgmem href hnone
    rcases hg : resolveGrupo s gid with _ | g0
    · have hstore : (remover_pessoa s gid pid).1 = s := by
        unfold remover_pessoa
        cases resolvePessoaRouter s pid <;> rw [hg]
      exact ⟨g, by rw [hstore]; exact hgmem, href⟩
    · rcases hp : resolvePessoaRouter s pid with _ | p
      · have hstore : (remover_pessoa s gid pid).1 = s := by
          unfold remover_pessoa
          rw [hg, hp]
        exact ⟨g, by rw [hstore]; exact hgmem, href⟩
      · have hrefid : (ref.id == p.oid) = false := by
          rw [beq_eq_false_iff_ne]
          intro hcontra
          have hpmem : p ∈ s.pessoas := mem_of_resolvePessoa hp
          have hsome : (pessoaById s ref.id).isSome := by
            rw [pessoaById, List.find?_isSome]
            exact ⟨p, hpmem, by simp [hcontra]⟩
          rw [hnone] at hsome
          simp at hsome
        have hstore : (remover_pessoa s gid pid).1 =
            saveGrupo s { g0 with pessoas := g0.pessoas.filter (fun r => !(r.id == p.oid)) } := by
          unfold remover_pessoa
          rw [hg, hp]
        by_cases hsame : (g.oid == g0.oid) = true
        · have hg0mem : g0 ∈ s.grupos := mem_of_resolveGrupo hg
          have heq : g = g0 :=
            List.inj_on_of_nodup_map hnodup hgmem hg0mem (by simpa using hsame)
          subst heq
          refine ⟨{ g with pessoas := g.pessoas.filter (fun r => !(r.id == p.oid)) }, ?_, ?_⟩
          · rw [hstore]
            unfold saveGrupo
            exact List.mem_map.mpr ⟨g, hgmem, by simp⟩
          · exact List.mem_filter.mpr ⟨href, by simp [hrefid]⟩
        · refine ⟨g, ?_, href⟩
          rw [hstore]
          unfold saveGrupo
          exact List.mem_map.mpr ⟨g, hgmem, by simp [hsame]⟩

/-- Witness for `member_ops_resolve_person_first` at `sGhost`: the
unresolvable identifier Bob 404s both member operations, and Ghost's stale
snapshot survives a `remover_pessoa` call. -/
theorem member_ops_resolve_person_first_witness :
    (resolvePessoaRouter sGhost "Bob" = none ∧
      (sGhost.grupos.map GrupoDoc.oid).Nodup ∧ gTurma ∈ sGhost.grupos ∧
      refGhost ∈ gTurma.pessoas ∧ pessoaById sGhost refGhost.id = none) ∧
    remover_pessoa sGhost "Turma" "Bob" =
      (sGhost, .error ⟨404, "Grupo ou pessoa não encontrado"⟩) ∧
    (∃ g', g' ∈ ((remover_pessoa sGhost "Turma" "Ana").1).grupos ∧ refGhost ∈ g'.pessoas) :=
  ⟨⟨rfl, by decide, by decide, by decide, rfl⟩,
    (member_ops_resolve_person_first.1 sGhost "Turma" "Bob" rfl).2,
    member_ops_resolve_person_first.2 sGhost "Turma" "Ana" gTurma refGhost (by decide)
      (by decide) (by decide) rfl⟩

end MemApi
